import Mathlib

/-!
Shallow embedding of the retrieval core of `src/TravelAgent.py`
(class `DestinationInfoRetriever`).

The state of the Python object is the pair of attributes
`self.index` (a `faiss.IndexFlatL2(384)`) and `self.knowledge_base`
(a Python list of strings).  The sentence-transformer encoder and the
SerpAPI fetches are external collaborators; they are passed in as
explicit parameters (`Encoder`, `Except String (List SerpResult)`).

Vectors are modelled as lists of integers with exact squared Euclidean
distance; the floating-point nature of the real embeddings is
irrelevant to the structural claims settled here.
-/

set_option autoImplicit false

/-- An embedding vector (the real code uses 384-dimensional float vectors). -/
abbrev Vec := List Int

/-- Squared Euclidean distance, the metric of `faiss.IndexFlatL2`. -/
def sqDist (u v : Vec) : Int :=
  (List.zipWith (fun a b => (a - b) * (a - b)) u v).sum

/-- Model of `faiss.IndexFlatL2`: an ordered store of vectors, position = insertion order. -/
structure IndexFlatL2 where
  vecs : List Vec
deriving DecidableEq, Repr

/-- A fresh index, as created by `faiss.IndexFlatL2(384)` in `__init__`. -/
def IndexFlatL2.empty : IndexFlatL2 := ⟨[]⟩

/-- `index.add(xs)`: appends the vectors, positions continue sequentially. -/
def IndexFlatL2.add (idx : IndexFlatL2) (new : List Vec) : IndexFlatL2 :=
  ⟨idx.vecs ++ new⟩

/-- `index.ntotal`: the number of stored vectors. -/
def IndexFlatL2.ntotal (idx : IndexFlatL2) : Nat := idx.vecs.length

/-- Insert into a list sorted by the boolean relation `le` (used by `sortPairs`). -/
def insertSorted {α : Type} (le : α → α → Bool) (a : α) : List α → List α
  | [] => [a]
  | b :: bs => if le a b then a :: b :: bs else b :: insertSorted le a bs

/-- Insertion sort by the boolean relation `le`. -/
def sortPairs {α : Type} (le : α → α → Bool) : List α → List α
  | [] => []
  | a :: as => insertSorted le a (sortPairs le as)

/-- The value FAISS uses to pad the distance array when fewer than `k`
vectors are stored (FLT_MAX). -/
def faissPadDist : Int := 340282346638528859811704183484516925440

/-- `index.search(q, k)` for a single query vector, returning the pair
(distances row, labels row) exactly as the Python code destructures it.
FAISS returns exactly `k` slots, the valid results first in ascending
squared-L2 distance, the missing slots padded with label `-1`.
Tie order among equal distances is unspecified by FAISS; this model
resolves ties by lower position, and every concrete scenario proved
below uses pairwise distinct distances so that nothing depends on the
choice. -/
def IndexFlatL2.search (idx : IndexFlatL2) (q : Vec) (k : Nat) :
    List Int × List Int :=
  let scored := idx.vecs.enum.map (fun p => (p.1, sqDist q p.2))
  let sorted := sortPairs
    (fun x y => decide (x.2 < y.2) || (decide (x.2 = y.2) && decide (x.1 ≤ y.1)))
    scored
  let top := sorted.take k
  (top.map (fun p => p.2) ++ List.replicate (k - top.length) faissPadDist,
   top.map (fun p => (p.1 : Int)) ++ List.replicate (k - top.length) (-1))

/-- Python list subscript `xs[i]` for a possibly negative index `i`:
a negative index counts from the end; out of range raises IndexError
("list index out of range"). -/
def pyGet {α : Type} (xs : List α) (i : Int) : Except String α :=
  let j : Int := if i < 0 then (xs.length : Int) + i else i
  if h : 0 ≤ j ∧ j.toNat < xs.length then .ok (xs.get ⟨j.toNat, h.2⟩)
  else .error "list index out of range"

/-- One entry of SerpAPI's `organic_results`: only the `snippet` field is
used by the code (`result.get('snippet', '')`, hence optional). -/
structure SerpResult where
  snippet : Option String
deriving DecidableEq, Repr

/-- `_get_destination_attractions`: on a successful SerpAPI call, the
snippets of the first five organic results (`[:5]`, missing snippet
defaulting to `""`); the surrounding `try/except` turns any failure of
the fetch into `[]`. The fetch outcome is the explicit argument. -/
def _get_destination_attractions (fetch : Except String (List SerpResult)) :
    List String :=
  match fetch with
  | .ok results => (results.take 5).map (fun r => r.snippet.getD "")
  | .error _ => []

/-- `_get_destination_restaurants`: identical shape to the attractions
source — first five organic-result snippets, `[]` on any fetch failure. -/
def _get_destination_restaurants (fetch : Except String (List SerpResult)) :
    List String :=
  match fetch with
  | .ok results => (results.take 5).map (fun r => r.snippet.getD "")
  | .error _ => []

/-- The observable state of a `DestinationInfoRetriever`: the FAISS index
and the `knowledge_base` list of strings. -/
structure DestinationInfoRetriever where
  index : IndexFlatL2
  knowledge_base : List String
deriving DecidableEq, Repr

/-- `DestinationInfoRetriever.__init__`: fresh empty index, empty knowledge base. -/
def DestinationInfoRetriever.init : DestinationInfoRetriever :=
  ⟨IndexFlatL2.empty, []⟩

/-- The sentence-transformer encoder as an external collaborator: a batch
call mapping a list of texts to a list of vectors, or failing (raising). -/
abbrev Encoder := List String → Except String (List Vec)

/-- `_build_knowledge_base`, with the two SerpAPI fetch outcomes and the
encoder explicit.  Faithful to the statement order of lines 67-79:
`self.knowledge_base = attractions + restaurants` is executed BEFORE
`self.encoder.encode(...)`, so when the encoder raises, the `except`
branch (which only prints `"Error building knowledge base: ..."` and
returns normally) leaves the knowledge base already replaced while the
index is untouched.  The second component is the printed message
(`none` when nothing is printed); no exception ever propagates. -/
def _build_knowledge_base (enc : Encoder)
    (attrFetch restFetch : Except String (List SerpResult))
    (self : DestinationInfoRetriever) :
    DestinationInfoRetriever × Option String :=
  let attractions := _get_destination_attractions attrFetch
  let restaurants := _get_destination_restaurants restFetch
  let kb := attractions ++ restaurants
  match enc kb with
  | .ok embeddings =>
      ({ index := self.index.add embeddings, knowledge_base := kb }, none)
  | .error e =>
      ({ index := self.index, knowledge_base := kb },
       some ("Error building knowledge base: " ++ e))

/-- Outcome of `retrieve_relevant_info`: either the normal return value
(the `"\n"`-joined relevant snippets) or the `except` branch, which
returns the string `"Error retrieving information: " ++ msg`. -/
inductive RetrieveOutcome where
  | ok (info : String)
  | caught (msg : String)
deriving DecidableEq, Repr

/-- The string actually returned to the caller by `retrieve_relevant_info`. -/
def RetrieveOutcome.rendered : RetrieveOutcome → String
  | .ok s => s
  | .caught e => "Error retrieving information: " ++ e

/-- `retrieve_relevant_info(query)`: embed `[query]`, search the index
with the hard-coded `k=3`, then resolve each returned label through
Python subscripting of `self.knowledge_base` (the list comprehension
raises on the first bad label, caught by the `except`).  The method
assigns no attribute, so the state is returned unchanged alongside the
outcome. -/
def retrieve_relevant_info (enc : Encoder) (self : DestinationInfoRetriever)
    (query : String) : RetrieveOutcome × DestinationInfoRetriever :=
  match enc [query] with
  | .error e => (.caught e, self)
  | .ok [] => (.caught "index 0 is out of bounds for axis 0 with size 0", self)
  | .ok (qv :: _) =>
      let labels := (self.index.search qv 3).2
      match labels.mapM (pyGet self.knowledge_base) with
      | .error e => (.caught e, self)
      | .ok relevant_info => (.ok (String.intercalate "\n" relevant_info), self)

/-- A concrete deterministic encoder instance for scenarios: each text is
mapped to the one-dimensional vector holding its length. -/
def encLen : Encoder := fun ts => .ok (ts.map (fun s => [(s.length : Int)]))

/-- A concrete always-failing encoder instance (model unavailable). -/
def encFail (msg : String) : Encoder := fun _ => .error msg

/-!
Theorems settling the claims.
-/

/-- Claim C1: the spec asserts `len(VectorIndex) == len(TextCorpus)` after
every completed build, in particular after a second build for a different
subject.  The code violates this: `_build_knowledge_base` replaces
`self.knowledge_base` but only appends to `self.index` (the FAISS index
is never reset), so after a build of two snippets followed by a build of
three snippets the index holds five vectors while the knowledge base
holds three entries. -/
theorem c1_length_invariant_fails_after_second_build :
    (_build_knowledge_base encLen
        (.ok [⟨some "ccc"⟩, ⟨some "dddd"⟩, ⟨some "eeeee"⟩]) (.ok [])
        (_build_knowledge_base encLen
          (.ok [⟨some "a"⟩, ⟨some "bb"⟩]) (.ok [])
          DestinationInfoRetriever.init).1).1.index.ntotal = 5 ∧
    (_build_knowledge_base encLen
        (.ok [⟨some "ccc"⟩, ⟨some "dddd"⟩, ⟨some "eeeee"⟩]) (.ok [])
        (_build_knowledge_base encLen
          (.ok [⟨some "a"⟩, ⟨some "bb"⟩]) (.ok [])
          DestinationInfoRetriever.init).1).1.knowledge_base.length = 3 := by
  decide

/-- Claim C2: the spec asserts a second build discards the prior
corpus/index pair entirely, so that every later query returns only text
gathered for the new subject.  The code keeps the first subject's
vectors in the index: after building three snippets for A and one for B
the index holds four vectors while the knowledge base holds only B's
one entry, and a query then resolves a stale index position through
`self.knowledge_base[i]`, raising IndexError instead of returning B's
text. -/
theorem c2_stale_vectors_survive_second_build :
    (_build_knowledge_base encLen (.ok [⟨some "dddd"⟩]) (.ok [])
        (_build_knowledge_base encLen
          (.ok [⟨some "a"⟩, ⟨some "bb"⟩, ⟨some "ccc"⟩]) (.ok [])
          DestinationInfoRetriever.init).1).1.index.ntotal = 4 ∧
    (_build_knowledge_base encLen (.ok [⟨some "dddd"⟩]) (.ok [])
        (_build_knowledge_base encLen
          (.ok [⟨some "a"⟩, ⟨some "bb"⟩, ⟨some "ccc"⟩]) (.ok [])
          DestinationInfoRetriever.init).1).1.knowledge_base = ["dddd"] ∧
    (retrieve_relevant_info encLen
        (_build_knowledge_base encLen (.ok [⟨some "dddd"⟩]) (.ok [])
          (_build_knowledge_base encLen
            (.ok [⟨some "a"⟩, ⟨some "bb"⟩, ⟨some "ccc"⟩]) (.ok [])
            DestinationInfoRetriever.init).1).1 "").1 =
      .caught "list index out of range" := by
  decide

/-- Claim C3: the spec asserts search returns exactly `min(k, n)` results
with no padding when the index holds fewer than `k` vectors.  With one
stored vector and the hard-coded `k = 3`, FAISS pads the label row with
`-1`, and Python's negative indexing maps `knowledge_base[-1]` to the
last entry, so the query returns three results — the single snippet
three times — instead of one. -/
theorem c3_fewer_than_k_returns_padded_duplicates :
    (_build_knowledge_base encLen (.ok [⟨some "aa"⟩]) (.ok [])
        DestinationInfoRetriever.init).1.index.ntotal = 1 ∧
    (retrieve_relevant_info encLen
        (_build_knowledge_base encLen (.ok [⟨some "aa"⟩]) (.ok [])
          DestinationInfoRetriever.init).1 "").1 = .ok "aa\naa\naa" := by
  decide

/-- Claim C4: the spec asserts a query against an empty index returns an
empty result and no error.  On a fresh retriever FAISS returns the three
labels `-1`, and `knowledge_base[-1]` on the empty list raises
IndexError, so the method takes its `except` branch and returns the
string "Error retrieving information: list index out of range" instead
of an empty result. -/
theorem c4_query_on_empty_index_takes_error_branch :
    (retrieve_relevant_info encLen DestinationInfoRetriever.init
      "anything").1 = .caught "list index out of range" := by
  decide

/-- Claim C5, counterexample: the claim says a failing embedding step
leaves the previously published corpus untouched (all-or-nothing) and
raises a BuildError.  In the code `self.knowledge_base = attractions +
restaurants` runs before `encode`, and the `except` branch only prints:
after a successful build of `["a"]`, a second build whose encoder fails
returns normally with the knowledge base already replaced by `["bb"]`. -/
theorem c5_counterexample_corpus_replaced_on_embed_failure :
    let r1 := (_build_knowledge_base encLen
      (.ok [⟨some "a"⟩]) (.ok []) DestinationInfoRetriever.init).1
    let out := _build_knowledge_base (encFail "model unavailable")
      (.ok [⟨some "bb"⟩]) (.ok []) r1
    r1.knowledge_base = ["a"] ∧
      out.1.knowledge_base = ["bb"] ∧
      out.1.knowledge_base ≠ r1.knowledge_base ∧
      out.1.index = r1.index ∧
      out.2 = some "Error building knowledge base: model unavailable" := by
  decide

/-- Claim C5, amended: if the embedding step fails during build after
text was gathered, the error is caught and logged and the build returns
normally (no BuildError propagates); the VectorIndex is left untouched,
but the TextCorpus has already been replaced by the newly gathered text,
so the failure is not all-or-nothing. -/
theorem c5_amended_embed_failure_logged_index_kept_corpus_replaced
    (enc : Encoder) (af rf : Except String (List SerpResult))
    (r : DestinationInfoRetriever) (msg : String)
    (h : enc (_get_destination_attractions af ++
      _get_destination_restaurants rf) = .error msg) :
    _build_knowledge_base enc af rf r =
      ({ index := r.index,
         knowledge_base := _get_destination_attractions af ++
           _get_destination_restaurants rf },
       some ("Error building knowledge base: " ++ msg)) := by
  simp [_build_knowledge_base, h]

/-- Witness for the amended C5 theorem at a concrete failing encoder. -/
theorem c5_amended_witness :
    _build_knowledge_base (encFail "boom") (.ok [⟨some "x"⟩]) (.ok [])
      DestinationInfoRetriever.init =
      ({ index := DestinationInfoRetriever.init.index,
         knowledge_base :=
           _get_destination_attractions (.ok [⟨some "x"⟩]) ++
             _get_destination_restaurants (.ok []) },
       some ("Error building knowledge base: " ++ "boom")) :=
  c5_amended_embed_failure_logged_index_kept_corpus_replaced
    (encFail "boom") (.ok [⟨some "x"⟩]) (.ok [])
    DestinationInfoRetriever.init "boom" rfl

/-- Claim C6: if embedding the query fails, `retrieve_relevant_info`
takes its `except` branch (returning the error string, not an ordinary
joined-snippets result), and the retriever state — in particular the
index — is unchanged by the failed query. -/
theorem c6_query_embedding_failure_is_caught_state_unchanged
    (enc : Encoder) (r : DestinationInfoRetriever) (q msg : String)
    (h : enc [q] = .error msg) :
    retrieve_relevant_info enc r q = (.caught msg, r) := by
  simp [retrieve_relevant_info, h]

/-- Witness for C6 at a concrete failing encoder. -/
theorem c6_witness :
    retrieve_relevant_info (encFail "down") DestinationInfoRetriever.init
      "pasta" = (.caught "down", DestinationInfoRetriever.init) :=
  c6_query_embedding_failure_is_caught_state_unchanged (encFail "down")
    DestinationInfoRetriever.init "pasta" "down" rfl

/-- Claim C7: a failing text source is isolated.  Each source wraps its
fetch in its own `try/except` returning `[]`, so when one source fails
and the embedder succeeds on the remaining text, the build completes
normally (nothing printed) and the knowledge base is exactly the text of
the remaining source; the new vectors are appended for that text alone.
Both the attractions-failing and the restaurants-failing cases are
stated. -/
theorem c7_failing_source_is_isolated (enc : Encoder)
    (af rf : Except String (List SerpResult)) (r : DestinationInfoRetriever)
    (m1 m2 : String) (vsR vsA : List Vec)
    (hR : enc (_get_destination_restaurants rf) = .ok vsR)
    (hA : enc (_get_destination_attractions af) = .ok vsA) :
    _build_knowledge_base enc (.error m1) rf r =
      ({ index := r.index.add vsR,
         knowledge_base := _get_destination_restaurants rf }, none) ∧
    _build_knowledge_base enc af (.error m2) r =
      ({ index := r.index.add vsA,
         knowledge_base := _get_destination_attractions af }, none) := by
  constructor
  · simp [_build_knowledge_base, _get_destination_attractions, hR]
  · simp [_build_knowledge_base, _get_destination_restaurants, hA]

/-- Witness for C7: one source fails concretely, the other provides one
snippet, with the length encoder. -/
theorem c7_witness :
    _build_knowledge_base encLen (.error "timeout") (.ok [⟨some "r1"⟩])
      DestinationInfoRetriever.init =
      ({ index := DestinationInfoRetriever.init.index.add [[2]],
         knowledge_base := _get_destination_restaurants (.ok [⟨some "r1"⟩]) },
       none) ∧
    _build_knowledge_base encLen (.ok [⟨some "a1"⟩]) (.error "timeout")
      DestinationInfoRetriever.init =
      ({ index := DestinationInfoRetriever.init.index.add [[2]],
         knowledge_base := _get_destination_attractions (.ok [⟨some "a1"⟩]) },
       none) :=
  c7_failing_source_is_isolated encLen (.ok [⟨some "a1"⟩]) (.ok [⟨some "r1"⟩])
    DestinationInfoRetriever.init "timeout" "timeout" [[2]] [[2]] rfl rfl

/-- Claim C8: the corpus built is the concatenation of the attractions
snippets followed by the restaurants snippets (source order, then item
order); the encoder is applied once to that whole corpus as a single
batch, and on success the resulting vectors are appended to the index in
that same order.  The result of the build is fully determined by that
single batch application. -/
theorem c8_corpus_order_batch_embed_ordered_insert (enc : Encoder)
    (af rf : Except String (List SerpResult)) (r : DestinationInfoRetriever)
    (vs : List Vec)
    (h : enc (_get_destination_attractions af ++
      _get_destination_restaurants rf) = .ok vs) :
    _build_knowledge_base enc af rf r =
      ({ index := ⟨r.index.vecs ++ vs⟩,
         knowledge_base := _get_destination_attractions af ++
           _get_destination_restaurants rf }, none) := by
  simp [_build_knowledge_base, IndexFlatL2.add, h]

/-- Witness for C8 with one snippet from each source. -/
theorem c8_witness :
    _build_knowledge_base encLen (.ok [⟨some "a1"⟩]) (.ok [⟨some "r22"⟩])
      DestinationInfoRetriever.init =
      ({ index := ⟨DestinationInfoRetriever.init.index.vecs ++ [[2], [3]]⟩,
         knowledge_base := _get_destination_attractions (.ok [⟨some "a1"⟩]) ++
           _get_destination_restaurants (.ok [⟨some "r22"⟩]) }, none) :=
  c8_corpus_order_batch_embed_ordered_insert encLen (.ok [⟨some "a1"⟩])
    (.ok [⟨some "r22"⟩]) DestinationInfoRetriever.init [[2], [3]] rfl

/-- Claim C10: each source truncates to its first five snippets
(`[:5]`), so for any fetch outcomes and any encoder the knowledge base
produced by a single build has at most 5 + 5 = 10 entries. -/
theorem c10_build_knowledge_base_at_most_ten (enc : Encoder)
    (af rf : Except String (List SerpResult)) (r : DestinationInfoRetriever) :
    (_get_destination_attractions af).length ≤ 5 ∧
    (_get_destination_restaurants rf).length ≤ 5 ∧
    ((_build_knowledge_base enc af rf r).1).knowledge_base.length ≤ 10 := by
  have hA : (_get_destination_attractions af).length ≤ 5 := by
    cases af with
    | error e => simp [_get_destination_attractions]
    | ok rs => simp [_get_destination_attractions]
  have hR : (_get_destination_restaurants rf).length ≤ 5 := by
    cases rf with
    | error e => simp [_get_destination_restaurants]
    | ok rs => simp [_get_destination_restaurants]
  refine ⟨hA, hR, ?_⟩
  unfold _build_knowledge_base
  cases h : enc (_get_destination_attractions af ++
      _get_destination_restaurants rf) <;>
    simp [h, List.length_append] <;> omega
